import Mathlib

/-!
Verification development for the landscape-client broker message-exchange
core: the MessageStore queue, the Exchanger broadcast/failure-synthesis
policy, the PluginRegistry, the cephusage accumulator plugin, and the
sqlite-backed ManagerStore (src/landscape/client/manager/store.py).

The repository ships the broker's test suite
(src/landscape/broker/tests/test_service.py) but not the broker modules
themselves, so the MessageStore / Exchanger / PluginRegistry operations are
modelled from the specification (spec.md sections 3, 4.1, 4.3, 4.4 and 6),
shaped to match the behaviour the shipped tests exercise.  The ManagerStore
and the cephusage plugin are embedded from the source files directly.
-/

namespace Landscape

/-- Status of a synthesized operation-result message.  Modelled from the
spec: the numeric encoding of FAILED (imported by the tests from
landscape.manager.manager) is not in the sources, so the status is an
abstract enumeration. -/
inductive OpStatus
  | succeeded
  | failed
deriving DecidableEq, Repr

/-- A message envelope.  Modelled from the spec: a message is a mapping that
always carries a `type` string and may carry `operation-id`; the fields
`status` and `result-text` appear on synthesized operation-result messages.
The embedding fixes the fields the claims mention. -/
structure Message where
  type : String
  operationId : Option Int := none
  status : Option OpStatus := none
  resultText : Option String := none
deriving DecidableEq, Repr

/-- The MessageStore state.  Modelled from the spec (section 4.1): an
ordered queue of messages, a PendingOffset cursor, the server-controlled
accepted-types set and the set of message types with a registered schema.
The broker module holding the real class is not under src/. -/
structure MessageStore where
  queue : List Message
  pendingOffset : Nat
  acceptedTypes : List String
  schemas : List String
deriving DecidableEq, Repr

/-- Modelled from the spec: `add(message) -> message_id` validates the
message against the schema for its type (failing with SchemaError when the
type is unknown; per-field validation is degenerate here because the
embedded Message has a fixed shape), assigns the next id and appends to the
queue.  Ids are the queue indices: assigned at insertion, monotonically
increasing, never reused. -/
def MessageStore.add (s : MessageStore) (m : Message) :
    Except String (MessageStore × Nat) :=
  if m.type ∈ s.schemas then
    .ok ({ s with queue := s.queue ++ [m] }, s.queue.length)
  else
    .error "SchemaError"

/-- Modelled from the spec: `is_pending(message_id)` is true iff the
message's queue index is at or after the current PendingOffset. -/
def MessageStore.is_pending (s : MessageStore) (messageId : Nat) : Bool :=
  decide (s.pendingOffset ≤ messageId)

/-- Modelled from the spec: `add_pending_offset(n)` advances the offset by
`n` and fails with InvalidOffsetError if it would exceed the queue
length, leaving the offset unchanged. -/
def MessageStore.add_pending_offset (s : MessageStore) (n : Nat) :
    Except String MessageStore :=
  if s.pendingOffset + n > s.queue.length then
    .error "InvalidOffsetError"
  else
    .ok { s with pendingOffset := s.pendingOffset + n }

/-- Modelled from the spec: `get_pending_messages(max_count)` returns the
messages at or after PendingOffset, oldest first, restricted to currently
accepted types, up to `max_count`; non-accepted messages are skipped but
remain queued. -/
def MessageStore.get_pending_messages (s : MessageStore) (maxCount : Nat) :
    List Message :=
  ((s.queue.drop s.pendingOffset).filter
    (fun m => m.type ∈ s.acceptedTypes)).take maxCount

/-- Modelled from the spec: `set_accepted_types` replaces the accepted-types
set wholesale. -/
def MessageStore.set_accepted_types (s : MessageStore) (types : List String) :
    MessageStore :=
  { s with acceptedTypes := types }

/-- Modelled from the spec: `add_schema(type, schema)` registers validation
for a message type (re-registering overwrites, so the set of known types
gains at most one element). -/
def MessageStore.add_schema (s : MessageStore) (type : String) :
    MessageStore :=
  if type ∈ s.schemas then s else { s with schemas := s.schemas ++ [type] }

/-- Modelled from the spec (section 4.3): the registry holds the registered
plugin endpoints, ordered by registration, as (bus name, object path)
pairs. -/
abbrev PluginRegistry := List (String × String)

/-- Modelled from the spec: `register_plugin(endpoint_name, endpoint_path)`
is an idempotent add — re-registering an identical pair is a no-op, not a
duplicate entry. -/
def register_plugin (registry : PluginRegistry) (name path : String) :
    PluginRegistry :=
  if (name, path) ∈ registry then registry else registry ++ [(name, path)]

/-- Modelled from the spec: `get_registered_plugins()` returns the
registered endpoints in registration order. -/
def get_registered_plugins (registry : PluginRegistry) : PluginRegistry :=
  registry

/-- The agent name used in synthesized failure texts.  Modelled from the
spec's `<agent>` placeholder; the shipped tests fix it to
"Landscape client". -/
def landscapeAgent : String := "Landscape client"

/-- Modelled from the spec (section 4.4): the operation-result message the
Exchanger constructs when no plugin claims an inbound operation. -/
def failedOperationMessage (agent type : String) (opId : Option Int) :
    Message :=
  { type := "operation-result"
    operationId := opId
    status := some .failed
    resultText :=
      some (agent ++ " failed to handle this request (" ++ type ++ ")") }

/-- Modelled from the spec (sections 4.3 and 4.4): after broadcasting an
inbound message, the Exchanger inspects the per-plugin responses (`some
true` handled, `some false` not handled, `none` raised or timed out).  If
some plugin handled it, nothing more happens.  Otherwise, `resynchronize`
messages are excluded from failure synthesis (the broker handles them
itself); for any other type an operation-result FAILED message is enqueued
via MessageStore, provided `operation-result` is itself an accepted type,
and is silently dropped otherwise. -/
def handleInboundMessage (store : MessageStore) (msg : Message)
    (responses : List (Option Bool)) : MessageStore :=
  if some true ∈ responses then store
  else if msg.type = "resynchronize" then store
  else if "operation-result" ∈ store.acceptedTypes then
    match store.add
        (failedOperationMessage landscapeAgent msg.type msg.operationId) with
    | .ok (s, _) => s
    | .error _ => store
  else store

/-- Exchanger scheduling state.  Modelled from the spec (section 4.4): the
store plus an orthogonal Urgent flag that shortens the next scheduled
transition into an exchange. -/
structure Exchanger where
  store : MessageStore
  urgent : Bool
deriving DecidableEq, Repr

/-- Modelled from the spec: `send_message(envelope, urgent)` inserts the
message into the MessageStore and, when `urgent` is set, raises the
Urgent flag; it returns the assigned message id. -/
def send_message (e : Exchanger) (m : Message) (urgent : Bool) :
    Except String (Exchanger × Nat) :=
  match e.store.add m with
  | .ok (s, messageId) =>
      .ok ({ store := s, urgent := e.urgent || urgent }, messageId)
  | .error err => .error err

/-- Modelled from the spec: `is_urgent` exposes the Urgent flag. -/
def Exchanger.is_urgent (e : Exchanger) : Bool := e.urgent

/-- Modelled from the spec (section 4.4, cadence): the scheduler always
runs on the shorter of the time remaining on the current timer and 0 when
the Urgent flag is set, so an urgent exchange is scheduled immediately. -/
def nextExchangeDelay (e : Exchanger) (remaining : Nat) : Nat :=
  if e.urgent then 0 else remaining

/-- Outcome of invoking one plugin's exit handler over IPC.  Modelled from
the spec: a handler either completes or raises (the tests use a handler
raising ZeroDivisionError). -/
inductive PluginExitBehavior
  | succeeds
  | raises
deriving DecidableEq, Repr

/-- Modelled from the spec: the IPC `exit()` call on one plugin, which may
fail with the exception the handler raised. -/
def plugin_exit_call : PluginExitBehavior → Except String Unit
  | .succeeds => .ok ()
  | .raises => .error "ZeroDivisionError"

/-- Modelled from the spec (section 4.3): `broadcast_exit()` calls each
registered plugin's shutdown handler; a plugin that errors is logged and
ignored, never aborting the broadcast.  The result is the trace of
per-plugin outcomes. -/
def broadcast_exit (plugins : List PluginExitBehavior) : List String :=
  plugins.map (fun p =>
    match plugin_exit_call p with
    | .ok _ => "plugin-exit-ok"
    | .error _ => "plugin-exit-error-logged")

/-- Modelled from the spec: the broker's `exit()` fires the "pre-exit"
notification, runs `broadcast_exit` over every registered plugin with each
failure caught and logged, and fires "post-exit" once all shutdown attempts
have resolved.  The value is the ordered trace of notifications and logged
outcomes; the function is total, so `exit()` completes for every plugin
population. -/
def broker_exit (plugins : List PluginExitBehavior) : List String :=
  "pre-exit" :: (broadcast_exit plugins ++ ["post-exit"])

/-- Modelled from the spec (section 6): `call_if_accepted(type, thunk,
*args)` invokes the thunk only if the type is currently accepted by the
MessageStore's accepted-types set, else returns nothing.  The thunk is a
state transformer so that non-invocation is observable (the tests observe
it through an appended-to list). -/
def call_if_accepted {σ β : Type} (store : MessageStore) (type : String)
    (thunk : σ → σ × β) (s : σ) : σ × Option β :=
  if type ∈ store.acceptedTypes then
    let r := thunk s
    (r.1, some r.2)
  else
    (s, none)

/-- Per-key accumulator state.  Modelled from the spec (sections 3 and
4.2): the last seen sample timestamp for the key and the running
time-weighted accumulated value of the current bucket.  The on-disk
Persist helper and landscape.accumulate are not under src/. -/
structure AccState where
  lastTimestamp : Nat
  accumulatedValue : Int
deriving DecidableEq, Repr

/-- The Persist database.  Modelled from the spec (section 6): per-plugin
accumulator state keyed by a plugin-defined namespace, then by accumulator
key. -/
abbrev PersistDB := List (String × List (String × AccState))

/-- Modelled from the spec: looking a key up under a namespace in the
Persist helper. -/
def persistGet (db : PersistDB) (ns key : String) : Option AccState :=
  match db.lookup ns with
  | some m => m.lookup key
  | none => none

/-- Modelled from the spec: storing a key's state under a namespace in the
Persist helper, replacing any previous state for that key. -/
def persistSet (db : PersistDB) (ns key : String) (st : AccState) :
    PersistDB :=
  match db.lookup ns with
  | some _ => db.map (fun p =>
      if p.1 = ns then (p.1, (key, st) :: p.2.filter (fun q => q.1 ≠ key))
      else p)
  | none => (ns, [(key, st)]) :: db

/-- Modelled from the spec: `Persist.remove(name)` deletes every entry
under the namespace, clearing all per-key state for it. -/
def persistRemove (db : PersistDB) (ns : String) : PersistDB :=
  db.filter (fun p => p.1 ≠ ns)

/-- Modelled from the spec (section 4.2): `accumulate(timestamp, value,
key)`.  With no state for the key (created lazily, or after a
resynchronization reset), a fresh bucket is started seeded with the value
and no completed step is returned.  An out-of-order timestamp is rejected
with OutOfOrderSampleError.  When the timestamp crosses into a new bucket
the previous bucket is finalized as its time-averaged value and a new
bucket is seeded; within the current bucket the running value is updated by
time-weighting and no step is returned. -/
def accumulate (interval : Nat) (db : PersistDB) (ns key : String)
    (ts : Nat) (v : Int) : Except String (PersistDB × Option (Nat × Int)) :=
  match persistGet db ns key with
  | none =>
      .ok (persistSet db ns key ⟨ts, v * ((ts % interval : Nat) : Int)⟩, none)
  | some st =>
      if ts < st.lastTimestamp then
        .error "OutOfOrderSampleError"
      else
        let prevStep := st.lastTimestamp / interval
        let newStep := ts / interval
        if prevStep < newStep then
          .ok (persistSet db ns key ⟨ts, v * ((ts % interval : Nat) : Int)⟩,
               some (prevStep * interval, st.accumulatedValue / interval))
        else
          .ok (persistSet db ns key
                ⟨ts, st.accumulatedValue + v * ((ts - st.lastTimestamp : Nat) : Int)⟩,
               none)

/-- The persistence namespace of the CephUsage plugin: its `persist_name`
attribute (src/landscape/manager/cephusage.py). -/
def cephPersistName : String := "ceph-usage"

/-- CephUsage._resynchronize (src/landscape/manager/cephusage.py): the
handler registered on the "resynchronize" notification removes everything
stored under the plugin's persistence namespace. -/
def cephResynchronize (db : PersistDB) : PersistDB :=
  persistRemove db cephPersistName

/-- A row of the `graph` table (src/landscape/client/manager/store.py,
ensure_schema): graph_id INTEGER PRIMARY KEY, filename TEXT NOT NULL,
user TEXT (nullable). -/
structure GraphRow where
  graph_id : Int
  filename : String
  user : Option String
deriving DecidableEq, Repr

/-- A row of the `graph_accumulate` table: graph_id INTEGER PRIMARY KEY,
graph_timestamp INTEGER, graph_value FLOAT.  The FLOAT column is embedded
as an integer-valued field: no claim computes with it, only stores and
retrieves it. -/
structure GraphAccumRow where
  graph_id : Int
  graph_timestamp : Int
  graph_value : Int
deriving DecidableEq, Repr

/-- The committed contents of the ManagerStore database: its two tables in
row order. -/
structure ManagerDB where
  graph : List GraphRow
  graph_accumulate : List GraphAccumRow
deriving DecidableEq, Repr

/-- ManagerStore.get_graph: SELECT graph_id, filename, user FROM graph
WHERE graph_id=?, fetchone — the first matching row, or none. -/
def get_graph (db : ManagerDB) (graphId : Int) :
    Option (Int × String × Option String) :=
  (db.graph.find? (fun r => r.graph_id = graphId)).map
    (fun r => (r.graph_id, r.filename, r.user))

/-- ManagerStore.get_graphs: SELECT graph_id, filename, user FROM graph,
fetchall. -/
def get_graphs (db : ManagerDB) : List (Int × String × Option String) :=
  db.graph.map (fun r => (r.graph_id, r.filename, r.user))

/-- ManagerStore.add_graph: if a row with the graph_id exists, UPDATE its
filename and user; otherwise INSERT a new row. -/
def add_graph (db : ManagerDB) (graphId : Int) (filename : String)
    (user : Option String) : ManagerDB :=
  if (db.graph.find? (fun r => r.graph_id = graphId)).isSome then
    { db with graph := db.graph.map (fun r =>
        if r.graph_id = graphId then
          { r with filename := filename, user := user }
        else r) }
  else
    { db with graph := db.graph ++ [⟨graphId, filename, user⟩] }

/-- ManagerStore.remove_graph: DELETE FROM graph WHERE graph_id=?. -/
def remove_graph (db : ManagerDB) (graphId : Int) : ManagerDB :=
  { db with graph := db.graph.filter (fun r => r.graph_id ≠ graphId) }

/-- ManagerStore.get_graph_accumulate: SELECT ... FROM graph_accumulate
WHERE graph_id=?, fetchone. -/
def get_graph_accumulate (db : ManagerDB) (graphId : Int) :
    Option (Int × Int × Int) :=
  (db.graph_accumulate.find? (fun r => r.graph_id = graphId)).map
    (fun r => (r.graph_id, r.graph_timestamp, r.graph_value))

/-- ManagerStore.set_graph_accumulate: UPDATE the row with the graph_id if
present, else INSERT it. -/
def set_graph_accumulate (db : ManagerDB) (graphId timestamp value : Int) :
    ManagerDB :=
  if (db.graph_accumulate.find? (fun r => r.graph_id = graphId)).isSome then
    { db with graph_accumulate := db.graph_accumulate.map (fun r =>
        if r.graph_id = graphId then
          { r with graph_timestamp := timestamp, graph_value := value }
        else r) }
  else
    { db with graph_accumulate :=
        db.graph_accumulate ++ [⟨graphId, timestamp, value⟩] }

/-- The with_cursor decorator (src/landscape/client/manager/store.py): the
wrapped method body runs inside a transaction against the committed state;
a normal return commits the body's resulting state, while an escaping
exception rolls the transaction back — the committed state is unchanged —
and the exception propagates.  The body is any cursor-level computation
that either produces a new database state and a result or raises. -/
def with_cursor {α ε : Type} (method : ManagerDB → Except ε (ManagerDB × α))
    (committed : ManagerDB) : ManagerDB × Except ε α :=
  match method committed with
  | .ok (db, result) => (db, .ok result)
  | .error e => (committed, .error e)

/-! ## Helper lemmas -/

theorem register_plugin_self_mem (registry : PluginRegistry)
    (name path : String) :
    (name, path) ∈ register_plugin registry name path := by
  unfold register_plugin
  split
  · assumption
  · exact List.mem_append_right _ (List.mem_singleton.mpr rfl)

theorem register_plugin_of_mem (registry : PluginRegistry)
    (name path : String) (h : (name, path) ∈ registry) :
    register_plugin registry name path = registry := by
  unfold register_plugin
  exact if_pos h

/-! ## Claim theorems -/

/-- C3: For every message id returned by MessageStore.add, is_pending is
true iff the message's queue index is at or after the current
PendingOffset: immediately after add it is true, and after
add_pending_offset advances the offset past the message's index it is
false. -/
theorem C3_is_pending_tracks_offset (s : MessageStore) (m : Message)
    (hschema : m.type ∈ s.schemas)
    (hwf : s.pendingOffset ≤ s.queue.length) :
    ∃ s1 messageId, s.add m = .ok (s1, messageId) ∧
      s1.is_pending messageId = true ∧
      ∀ n s2, s1.add_pending_offset n = .ok s2 →
        (messageId < s2.pendingOffset → s2.is_pending messageId = false) ∧
        (s2.pendingOffset ≤ messageId → s2.is_pending messageId = true) := by
  refine ⟨{ s with queue := s.queue ++ [m] }, s.queue.length, ?_, ?_, ?_⟩
  · simp [MessageStore.add, hschema]
  · simp [MessageStore.is_pending]
    omega
  · intro n s2 h
    unfold MessageStore.add_pending_offset at h
    split at h
    · exact absurd h (by simp)
    · cases h
      constructor
      · intro hlt
        simp only [MessageStore.is_pending] at hlt ⊢
        simp at hlt ⊢
        omega
      · intro hle
        simp only [MessageStore.is_pending] at hle ⊢
        simp at hle ⊢
        omega

/-- Witness for C3 at a concrete store and message. -/
theorem C3_is_pending_tracks_offset_witness :
    ∃ s1 messageId,
      (⟨[], 0, ["test"], ["test"]⟩ : MessageStore).add { type := "test" } =
        .ok (s1, messageId) ∧
      s1.is_pending messageId = true ∧
      ∀ n s2, s1.add_pending_offset n = .ok s2 →
        (messageId < s2.pendingOffset → s2.is_pending messageId = false) ∧
        (s2.pendingOffset ≤ messageId → s2.is_pending messageId = true) :=
  C3_is_pending_tracks_offset ⟨[], 0, ["test"], ["test"]⟩ { type := "test" }
    (by decide) (by decide)

/-- C4: register_plugin is idempotent — registering the identical
(name, path) pair twice yields the same registry as registering it once,
with exactly one entry for the pair in get_registered_plugins. -/
theorem C4_register_plugin_idempotent (registry : PluginRegistry)
    (name path : String) :
    register_plugin (register_plugin registry name path) name path =
      register_plugin registry name path ∧
    ((name, path) ∉ registry →
      (get_registered_plugins
        (register_plugin registry name path)).count (name, path) = 1) := by
  constructor
  · exact register_plugin_of_mem _ name path
      (register_plugin_self_mem registry name path)
  · intro hnot
    unfold get_registered_plugins register_plugin
    rw [if_neg hnot, List.count_append]
    rw [List.count_eq_zero.mpr hnot]
    simp

/-- Witness for C4 at a concrete registry and pair. -/
theorem C4_register_plugin_idempotent_witness :
    register_plugin
        (register_plugin [] "service.name" "/Path") "service.name" "/Path" =
      register_plugin [] "service.name" "/Path" ∧
    (get_registered_plugins
      (register_plugin [] "service.name" "/Path")).count
        ("service.name", "/Path") = 1 :=
  ⟨(C4_register_plugin_idempotent [] "service.name" "/Path").1,
   (C4_register_plugin_idempotent [] "service.name" "/Path").2 (by decide)⟩

/-- C6: call_if_accepted invokes the thunk and returns its result when the
type is currently accepted, and neither invokes the thunk (the state is
unchanged) nor returns a result when it is not. -/
theorem C6_call_if_accepted_spec (σ β : Type) (store : MessageStore)
    (type : String) (thunk : σ → σ × β) (s : σ) :
    (type ∈ store.acceptedTypes →
      call_if_accepted store type thunk s =
        ((thunk s).1, some (thunk s).2)) ∧
    (type ∉ store.acceptedTypes →
      call_if_accepted store type thunk s = (s, none)) := by
  constructor <;> intro h <;> simp [call_if_accepted, h]

/-- Witness for C6: with accepted types {"foo"}, "foo" invokes the thunk
and returns its value, "bar" leaves the state alone and returns nothing. -/
theorem C6_call_if_accepted_witness :
    call_if_accepted (⟨[], 0, ["foo"], []⟩ : MessageStore) "foo"
        (fun l : List Bool => (l ++ [true], "hi")) [] =
      ([true], some "hi") ∧
    call_if_accepted (⟨[], 0, ["foo"], []⟩ : MessageStore) "bar"
        (fun l : List Bool => (l ++ [true], "hi")) [] =
      ([], none) :=
  ⟨(C6_call_if_accepted_spec (List Bool) String ⟨[], 0, ["foo"], []⟩ "foo"
      (fun l => (l ++ [true], "hi")) []).1 (by decide),
   (C6_call_if_accepted_spec (List Bool) String ⟨[], 0, ["foo"], []⟩ "bar"
      (fun l => (l ++ [true], "hi")) []).2 (by decide)⟩

/-- C7: sending a message with urgent=true adds it to the MessageStore and
sets the exchanger's Urgent flag, so the next exchange is scheduled before
any positive normal interval elapses. -/
theorem C7_urgent_send_message (e : Exchanger) (m : Message)
    (hschema : m.type ∈ e.store.schemas) (normal : Nat)
    (hpos : 0 < normal) :
    ∃ e' messageId, send_message e m true = .ok (e', messageId) ∧
      m ∈ e'.store.queue ∧ e'.is_urgent = true ∧
      ∀ remaining, nextExchangeDelay e' remaining < normal := by
  refine ⟨⟨{ e.store with queue := e.store.queue ++ [m] },
           e.urgent || true⟩, e.store.queue.length, ?_, ?_, ?_, ?_⟩
  · simp [send_message, MessageStore.add, hschema]
  · simp
  · simp [Exchanger.is_urgent]
  · intro remaining
    simp [nextExchangeDelay]
    omega

/-- Witness for C7 at a concrete exchanger, message and interval. -/
theorem C7_urgent_send_message_witness :
    ∃ e' messageId,
      send_message ⟨⟨[], 0, ["test"], ["test"]⟩, false⟩ { type := "test" }
          true = .ok (e', messageId) ∧
      ({ type := "test" } : Message) ∈ e'.store.queue ∧
      e'.is_urgent = true ∧
      ∀ remaining, nextExchangeDelay e' remaining < 60 :=
  C7_urgent_send_message ⟨⟨[], 0, ["test"], ["test"]⟩, false⟩
    { type := "test" } (by decide) 60 (by decide)

/-- C1: For an inbound non-resynchronize message where every plugin
response is False or None (including zero plugins), exactly one
operation-result message with status FAILED, a result-text beginning with
"Landscape client failed to handle this request (<type>)" and the original
operation id is enqueued when operation-result is an accepted type, and no
message is enqueued when it is not. -/
theorem C1_unhandled_operation_failure (store : MessageStore) (msg : Message)
    (responses : List (Option Bool))
    (htype : msg.type ≠ "resynchronize")
    (hresp : ∀ r ∈ responses, r = some false ∨ r = none)
    (hschema : "operation-result" ∈ store.schemas) :
    (("operation-result" ∈ store.acceptedTypes →
        handleInboundMessage store msg responses =
          { store with queue := store.queue ++
              [failedOperationMessage landscapeAgent msg.type
                msg.operationId] }) ∧
     ("operation-result" ∉ store.acceptedTypes →
        handleInboundMessage store msg responses = store)) ∧
    (failedOperationMessage landscapeAgent msg.type msg.operationId).type =
      "operation-result" ∧
    (failedOperationMessage landscapeAgent msg.type msg.operationId).status =
      some .failed ∧
    (failedOperationMessage landscapeAgent msg.type
      msg.operationId).operationId = msg.operationId ∧
    ∃ rest,
      (failedOperationMessage landscapeAgent msg.type
        msg.operationId).resultText =
      some ("Landscape client failed to handle this request ("
            ++ msg.type ++ ")" ++ rest) := by
  have hnotrue : some true ∉ responses := by
    intro hmem
    rcases hresp _ hmem with h | h <;> simp at h
  refine ⟨⟨?_, ?_⟩, rfl, rfl, rfl, "", ?_⟩
  · intro hacc
    simp [handleInboundMessage, hnotrue, htype, hacc, MessageStore.add,
          failedOperationMessage, hschema]
  · intro hacc
    simp [handleInboundMessage, hnotrue, htype, hacc]
  · simp [failedOperationMessage, landscapeAgent]

/-- Witness for C1: the test scenario — no plugins (empty response list),
inbound type "foobar" with operation-id 4, accepted types
{"operation-result"}. -/
theorem C1_unhandled_operation_failure_witness :
    handleInboundMessage
        ⟨[], 0, ["operation-result"], ["operation-result"]⟩
        { type := "foobar", operationId := some 4 } [] =
      { queue := [failedOperationMessage landscapeAgent "foobar" (some 4)]
        pendingOffset := 0
        acceptedTypes := ["operation-result"]
        schemas := ["operation-result"] } :=
  ((C1_unhandled_operation_failure
      ⟨[], 0, ["operation-result"], ["operation-result"]⟩
      { type := "foobar", operationId := some 4 } []
      (by decide) (by intro r h; simp at h) (by decide)).1).1 (by decide)

/-- C2: for an inbound message of type "resynchronize", the absence of any
plugin returning True never synthesizes an operation-result failure: the
MessageStore is left unchanged, so zero messages are queued by the
broadcast. -/
theorem C2_resynchronize_no_failure (store : MessageStore) (msg : Message)
    (responses : List (Option Bool))
    (htype : msg.type = "resynchronize") :
    handleInboundMessage store msg responses = store ∧
    (handleInboundMessage store msg responses).queue = store.queue := by
  have h : handleInboundMessage store msg responses = store := by
    simp [handleInboundMessage, htype]
  exact ⟨h, by rw [h]⟩

/-- Witness for C2: the test scenario — no plugins, inbound resynchronize
message with operation-id 4, accepted types {"operation-result"}. -/
theorem C2_resynchronize_no_failure_witness :
    handleInboundMessage
        ⟨[], 0, ["operation-result"], ["operation-result"]⟩
        { type := "resynchronize", operationId := some 4 } [] =
      ⟨[], 0, ["operation-result"], ["operation-result"]⟩ :=
  (C2_resynchronize_no_failure
      ⟨[], 0, ["operation-result"], ["operation-result"]⟩
      { type := "resynchronize", operationId := some 4 } [] rfl).1

/-- Every event the exit broadcast logs is a per-plugin outcome, never a
lifecycle notification. -/
theorem broadcast_exit_events (plugins : List PluginExitBehavior) :
    ∀ x ∈ broadcast_exit plugins,
      x = "plugin-exit-ok" ∨ x = "plugin-exit-error-logged" := by
  intro x hx
  simp only [broadcast_exit, List.mem_map] at hx
  obtain ⟨p, _, hp⟩ := hx
  cases p <;> simp [plugin_exit_call] at hp <;> subst hp <;> tauto

/-- C5: for every plugin population, even one whose exit handlers raise,
the broker's exit() completes with a full trace in which "pre-exit" is
fired first, every plugin shutdown attempt resolves (errors logged and
ignored), and "post-exit" fires exactly once, after all of them. -/
theorem C5_exit_completes (plugins : List PluginExitBehavior) :
    broker_exit plugins =
      "pre-exit" :: (broadcast_exit plugins ++ ["post-exit"]) ∧
    (broker_exit plugins).count "post-exit" = 1 ∧
    (broker_exit plugins).count "pre-exit" = 1 ∧
    (broker_exit plugins).head? = some "pre-exit" ∧
    (broker_exit plugins).getLast? = some "post-exit" := by
  have hpost : "post-exit" ∉ broadcast_exit plugins := by
    intro h
    rcases broadcast_exit_events plugins _ h with h' | h' <;> simp at h'
  have hpre : "pre-exit" ∉ broadcast_exit plugins := by
    intro h
    rcases broadcast_exit_events plugins _ h with h' | h' <;> simp at h'
  refine ⟨rfl, ?_, ?_, rfl, ?_⟩
  · simp [broker_exit, List.count_cons, List.count_append,
          List.count_eq_zero.mpr hpost]
  · simp [broker_exit, List.count_cons, List.count_append,
          List.count_eq_zero.mpr hpre]
  · show ("pre-exit" :: (broadcast_exit plugins ++ ["post-exit"])).getLast? =
      some "post-exit"
    rw [← List.cons_append, List.getLast?_concat]

/-- Looking up a key in an association list after filtering away every
entry with that key finds nothing. -/
theorem lookup_filter_ne {α : Type} (l : List (String × α)) (ns : String) :
    (l.filter (fun p => p.1 ≠ ns)).lookup ns = none := by
  induction l with
  | nil => rfl
  | cons hd tl ih =>
      obtain ⟨k, v⟩ := hd
      by_cases h : k = ns
      · simpa [List.filter_cons, h] using ih
      · have hne : (ns == k) = false := by
          simp [Ne.symm h]
        simp only [List.filter_cons]
        rw [if_pos (by simp [h])]
        simp only [List.lookup, hne]
        exact ih

/-- C8: after the cephusage resynchronize handler runs, no per-key
accumulator state remains under the "ceph-usage" persistence namespace,
and the next accumulate call for any key starts a fresh bucket: it stores
a state freshly seeded at the sample and reports no completed step. -/
theorem C8_resynchronize_clears_accumulator (db : PersistDB) (key : String)
    (interval ts : Nat) (v : Int) :
    persistGet (cephResynchronize db) cephPersistName key = none ∧
    accumulate interval (cephResynchronize db) cephPersistName key ts v =
      .ok (persistSet (cephResynchronize db) cephPersistName key
        ⟨ts, v * ((ts % interval : Nat) : Int)⟩, none) := by
  have hget : persistGet (cephResynchronize db) cephPersistName key = none := by
    unfold persistGet cephResynchronize persistRemove
    rw [lookup_filter_ne]
  refine ⟨hget, ?_⟩
  unfold accumulate
  rw [hget]

/-- In a list of graph rows that contains a row with the given id, updating
every row with that id and then selecting the first row with that id yields
exactly the updated field values. -/
theorem find?_after_update (l : List GraphRow) (graphId : Int)
    (filename : String) (user : Option String)
    (h : (l.find? (fun r => r.graph_id = graphId)).isSome) :
    (l.map (fun r =>
        if r.graph_id = graphId then
          { r with filename := filename, user := user }
        else r)).find? (fun r => r.graph_id = graphId) =
      some ⟨graphId, filename, user⟩ := by
  induction l with
  | nil => simp at h
  | cons hd tl ih =>
      by_cases hhd : hd.graph_id = graphId
      · simp [List.find?, hhd]
      · rw [List.find?_cons_of_neg] at h
        · simp only [List.map_cons]
          rw [if_neg hhd, List.find?_cons_of_neg _ (by simpa using hhd)]
          exact ih h
        · simpa using hhd

/-- Selecting over an appended list when the first part has no match
selects from the second part. -/
theorem find?_append_of_none {α : Type} (l₁ l₂ : List α) (p : α → Bool)
    (h : l₁.find? p = none) : (l₁ ++ l₂).find? p = l₂.find? p := by
  induction l₁ with
  | nil => rfl
  | cons hd tl ih =>
      have hp : ¬ p hd = true := by
        intro hp
        rw [List.find?_cons_of_pos _ hp] at h
        exact absurd h (by simp)
      have htl : tl.find? p = none := by
        rwa [List.find?_cons_of_neg _ hp] at h
      rw [List.cons_append, List.find?_cons_of_neg _ hp]
      exact ih htl

/-- C9: round-trip through the ManagerStore — add_graph followed by
get_graph of the same graph_id returns exactly the inserted (graph_id,
filename, user) values, whether the row was inserted or updated. -/
theorem C9_add_graph_get_graph_roundtrip (db : ManagerDB) (graphId : Int)
    (filename : String) (user : Option String) :
    get_graph (add_graph db graphId filename user) graphId =
      some (graphId, filename, user) := by
  unfold get_graph add_graph
  by_cases h : (db.graph.find? (fun r => r.graph_id = graphId)).isSome
  · rw [if_pos h]
    simp only
    rw [find?_after_update db.graph graphId filename user h]
    rfl
  · rw [if_neg h]
    simp only
    rw [find?_append_of_none]
    · simp [List.find?]
    · rw [Option.not_isSome_iff_eq_none] at h
      exact h

/-- C10: with_cursor is atomic — if the wrapped method body raises, the
transaction is rolled back before the exception propagates, so the
committed state and every observable query (get_graph, get_graphs,
get_graph_accumulate) are unchanged; if the body returns normally, its
state is committed and its result returned. -/
theorem C10_with_cursor_atomicity {α ε : Type}
    (method : ManagerDB → Except ε (ManagerDB × α)) (db : ManagerDB) :
    (∀ e, method db = .error e →
      with_cursor method db = (db, .error e) ∧
      (∀ graphId,
        get_graph (with_cursor method db).1 graphId = get_graph db graphId) ∧
      get_graphs (with_cursor method db).1 = get_graphs db ∧
      (∀ graphId,
        get_graph_accumulate (with_cursor method db).1 graphId =
          get_graph_accumulate db graphId)) ∧
    (∀ db' a, method db = .ok (db', a) →
      with_cursor method db = (db', .ok a)) := by
  constructor
  · intro e he
    refine ⟨by simp [with_cursor, he], ?_, ?_, ?_⟩ <;>
      simp [with_cursor, he]
  · intro db' a h
    simp [with_cursor, h]

/-- Witness for C10: a body that raises leaves the committed state
untouched and propagates the error; a body that returns commits. -/
theorem C10_with_cursor_atomicity_witness :
    with_cursor (fun _ => (.error "ProgrammingError" :
        Except String (ManagerDB × Unit))) ⟨[], []⟩ =
      (⟨[], []⟩, .error "ProgrammingError") ∧
    with_cursor (fun d => (.ok (add_graph d 1 "file.png" (some "user"), ()) :
        Except String (ManagerDB × Unit))) ⟨[], []⟩ =
      (add_graph ⟨[], []⟩ 1 "file.png" (some "user"), .ok ()) :=
  ⟨((C10_with_cursor_atomicity
      (fun _ => (.error "ProgrammingError" :
        Except String (ManagerDB × Unit))) ⟨[], []⟩).1
      "ProgrammingError" rfl).1,
   (C10_with_cursor_atomicity
      (fun d => (.ok (add_graph d 1 "file.png" (some "user"), ()) :
        Except String (ManagerDB × Unit))) ⟨[], []⟩).2
      (add_graph ⟨[], []⟩ 1 "file.png" (some "user")) () rfl⟩

end Landscape
